import Mathlib

/-!
Shallow embedding of the cc0::allocator in-place memory allocator
(src/alloc.h, src/alloc.cpp).

The backing buffer is modelled by a total map from byte offsets (relative
to the buffer base m_mem) to the 8-byte Block header stored at that offset;
pointers are byte offsets, with Int offsets where the source performs
pointer arithmetic that may go below the base. All uint32 arithmetic of the
source is modelled on Nat with explicit wrapping modulo 2^32 where the
source can overflow or underflow.
-/

namespace cc0

/-- The block header of alloc.h: size_flags packs the occupied bit (bit 31,
1 = occupied) with the 31-bit payload size; prev is the byte offset from
this block back to the previous block (0 = no previous block). -/
structure Block where
  size_flags : Nat
  prev : Nat
deriving DecidableEq

/-- 2^32, the modulus of the uint32 arithmetic used throughout the source. -/
def U32 : Nat := 4294967296

/-- uint32 addition (wraps modulo 2^32). -/
def u32add (a b : Nat) : Nat := (a + b) % U32

/-- uint32 subtraction (wraps below zero). -/
def u32sub (a b : Nat) : Nat := (a + (U32 - b % U32)) % U32

/-- The allocator state of alloc.h: the buffer contents (as the header map),
the buffer size m_size, the alignment granularity m_align_bytes, the aligned
header footprint m_block_alignment and the running occupied-byte counter
m_occupied. -/
structure allocator where
  mem : Nat → Block
  m_size : Nat
  m_align_bytes : Nat
  m_block_alignment : Nat
  m_occupied : Nat

namespace allocator

/-- The zeroed header (what memset-cleared memory reads back as). -/
def zeroBlock : Block := { size_flags := 0, prev := 0 }

/-- Store a header at a byte offset of the buffer. -/
def writeMem (s : allocator) (o : Nat) (b : Block) : allocator :=
  { s with mem := fun x => if x = o then b else s.mem x }

/-- cc0::allocator::set_free (alloc.cpp line 29). -/
def set_free (b : Block) : Block :=
  { b with size_flags := b.size_flags &&& 0x7fffffff }

/-- cc0::allocator::set_occupied (alloc.cpp line 34). -/
def set_occupied (b : Block) : Block :=
  { b with size_flags := b.size_flags ||| 0x80000000 }

/-- cc0::allocator::is_free (alloc.cpp line 40). -/
def is_free (b : Block) : Bool :=
  b.size_flags &&& 0x80000000 == 0

/-- cc0::allocator::is_occupied (alloc.cpp line 45). -/
def is_occupied (b : Block) : Bool :=
  b.size_flags &&& 0x80000000 != 0

/-- cc0::allocator::get_size (alloc.cpp line 50). -/
def get_size (b : Block) : Nat :=
  b.size_flags &&& 0x7fffffff

/-- cc0::allocator::set_size (alloc.cpp line 55). -/
def set_size (b : Block) (size : Nat) : Block :=
  { b with size_flags := (b.size_flags &&& 0x80000000) ||| (size &&& 0x7fffffff) }

/-- cc0::allocator::get_prev (alloc.cpp line 10): p = b - b->prev; nullptr
if p is below the buffer base or b->prev is 0. -/
def get_prev (s : allocator) (o : Nat) : Option Nat :=
  if (o : Int) - ((s.mem o).prev : Int) < 0 then none
  else if 0 < (s.mem o).prev then some (o - (s.mem o).prev) else none

/-- cc0::allocator::get_next (alloc.cpp line 19): next = get_size(b);
p = b + next; nullptr if p is at or past the buffer end or next is 0.
Note the source adds only the payload size, not the header footprint. -/
def get_next (s : allocator) (o : Nat) : Option Nat :=
  if s.m_size ≤ o + get_size (s.mem o) then none
  else if 0 < get_size (s.mem o) then some (o + get_size (s.mem o)) else none

/-- cc0::allocator::align_num_bytes (alloc.cpp line 60); uint32 arithmetic,
so the result wraps modulo 2^32. -/
def align_num_bytes (a n : Nat) : Nat :=
  ((n / a) * a + a * (if 0 < n % a then 1 else 0)) % U32

/-- The constructor cc0::allocator::allocator (alloc.cpp line 65): zeroes
the buffer, coerces a zero alignment to 1, computes the header footprint,
writes one free block of size m_size - footprint with prev = 0 at offset 0
and counts the footprint as occupied. -/
def init (size align0 : Nat) : allocator :=
  let ab := if 0 < align0 then align0 else 1
  let ba := align_num_bytes ab 8
  let b0 := set_free (set_size { zeroBlock with prev := 0 } (u32sub size ba))
  { mem := fun x => if x = 0 then b0 else zeroBlock,
    m_size := size, m_align_bytes := ab, m_block_alignment := ba,
    m_occupied := u32add 0 ba }

/-- The scanning while-loop of cc0::allocator::alloc (alloc.cpp line 85):
advance through get_next while the block is occupied or too small. Offsets
reached from some o strictly increase and stay below m_size, so fuel
m_size + 1 (used by alloc below) can never be exhausted. -/
def scan (s : allocator) (num : Nat) : Nat → Option Nat → Option Nat
  | _, none => none
  | 0, some _ => none
  | f + 1, some o =>
    if is_occupied (s.mem o) || decide (get_size (s.mem o) < num)
    then scan s num f (get_next s o)
    else some o

/-- cc0::allocator::alloc (alloc.cpp line 77). Returns none exactly when
the source dereferences a null pointer (get_next returning nullptr inside
the split branch); otherwise some (new state, returned pointer), with the
pointer given as a byte offset and nullptr returned as Option.none. -/
def alloc (s : allocator) (num_bytes : Nat) : Option (allocator × Option Nat) :=
  if num_bytes = 0 then some (s, none) else
  let num := align_num_bytes s.m_align_bytes num_bytes
  match scan s num (s.m_size + 1) (some 0) with
  | none => some (s, none)
  | some o =>
    let s1 := writeMem s o (set_occupied (s.mem o))
    if (num + s.m_align_bytes + s.m_block_alignment) % U32 ≤ get_size (s1.mem o) then
      let free_size := u32sub (u32sub (get_size (s1.mem o)) num) s.m_block_alignment
      let s2 := writeMem s1 o (set_size (s1.mem o) num)
      match get_next s2 o with
      | none => none
      | some no =>
        let s3 := writeMem s2 no { set_size (set_free (s2.mem no)) free_size with prev := num }
        let s4 := { s3 with m_occupied := u32add s3.m_occupied s.m_block_alignment }
        let s5 := { s4 with m_occupied := u32add s4.m_occupied (get_size (s4.mem o)) }
        some (s5, some (o + s.m_block_alignment))
    else
      let s2 := { s1 with m_occupied := u32add s1.m_occupied (get_size (s1.mem o)) }
      some (s2, some (o + s.m_block_alignment))

/-- cc0::allocator::free (alloc.cpp line 107). The argument is the byte
offset of the released pointer from the buffer base, as an Int since the
source subtracts the header footprint before the bounds check. -/
def free (s : allocator) (p : Int) : allocator :=
  if (s.m_size : Int) ≤ p - (s.m_block_alignment : Int) ∨
      p - (s.m_block_alignment : Int) < 0 then s
  else
    let o := (p - (s.m_block_alignment : Int)).toNat
    let s1 := writeMem s o (set_free (s.mem o))
    let s1 := { s1 with m_occupied := u32sub s1.m_occupied (get_size (s1.mem o)) }
    let step1 : allocator × Nat × Bool :=
      match get_prev s1 o with
      | some po =>
        if is_free (s1.mem po) then
          (writeMem s1 po (set_size (s1.mem po) (get_size (s1.mem o) + get_size (s1.mem po))),
           po, true)
        else (s1, o, false)
      | none => (s1, o, false)
    let s2 := step1.1
    let o2 := step1.2.1
    let step2 : allocator × Bool :=
      match get_next s2 o2 with
      | some no =>
        if is_free (s2.mem no) then
          (writeMem s2 o2 (set_size (s2.mem o2) (get_size (s2.mem o2) + get_size (s2.mem no))),
           true)
        else (s2, false)
      | none => (s2, false)
    let s3 := step2.1
    if step1.2.2 || step2.2 then
      { s3 with m_occupied := u32sub s3.m_occupied s.m_block_alignment }
    else s3

/-- cc0::allocator::occupied_bytes (alloc.cpp line 138). -/
def occupied_bytes (s : allocator) : Nat := s.m_occupied

/-- cc0::allocator::total_bytes (alloc.cpp line 143). -/
def total_bytes (s : allocator) : Nat := s.m_size

/-- The sequence of block offsets visited by the code's own traversal
(get_next starting from the first block), fuel-bounded like scan. -/
def blockList (s : allocator) : Nat → Option Nat → List Nat
  | _, none => []
  | 0, some _ => []
  | f + 1, some o => o :: blockList s f (get_next s o)

/-- The blocks of the allocator: the traversal from offset 0 with the same
fuel bound used by alloc. -/
def blocks (s : allocator) : List Nat :=
  blockList s (s.m_size + 1) (some 0)

/-- Spec-side first-fit: the first block of the traversal that is free and
whose payload size is at least the rounded request. -/
def firstFit (s : allocator) (num : Nat) : Option Nat :=
  (blocks s).find? (fun o => is_free (s.mem o) && decide (num ≤ get_size (s.mem o)))

/-- Spec-side tiling sum: header footprint plus payload size, summed over
all blocks of the traversal. -/
def tileSum (s : allocator) : Nat :=
  ((blocks s).map (fun o => s.m_block_alignment + get_size (s.mem o))).sum

/-- The pointer (byte offset) returned by alloc, ignoring the state. -/
def allocPtr (s : allocator) (n : Nat) : Option (Option Nat) :=
  (alloc s n).map (fun x => x.2)

/-- The state after alloc on a fresh 48-byte buffer with alignment 8 and a
16-byte request (the request splits the initial free block). -/
def afterAlloc16 : allocator :=
  match alloc (init 48 8) 16 with
  | some (s, _) => s
  | none => init 48 8

/-- The state after allocating 16 bytes from a fresh 48-byte buffer with
alignment 8 and then releasing the returned pointer. -/
def afterAllocFree : allocator :=
  match alloc (init 48 8) 16 with
  | some (s, some p) => free s (p : Int)
  | _ => init 48 8

/-- The occupied-byte counter after allocating 40 bytes from a fresh
48-byte buffer with alignment 8 and immediately releasing the pointer. -/
def roundTripOcc : Nat :=
  match alloc (init 48 8) 40 with
  | some (s, some p) => (free s (p : Int)).m_occupied
  | _ => 1000000

/-- A 48-byte buffer, alignment 8, holding a free block of payload 16 at
offset 0, an occupied block of payload 16 at offset 16 (prev = 16) and a
free block of payload 16 at offset 32 (prev = 16); per the code's own
navigation each block's successor is the next one. m_occupied is 40 =
three header footprints plus the occupied payload. -/
def threeBlockState : allocator :=
  { mem := fun o =>
      if o = 0 then { size_flags := 16, prev := 0 }
      else if o = 16 then { size_flags := 0x80000010, prev := 16 }
      else if o = 32 then { size_flags := 16, prev := 16 }
      else zeroBlock,
    m_size := 48, m_align_bytes := 8, m_block_alignment := 8, m_occupied := 40 }

/-- A 48-byte buffer, alignment 8, with an occupied block of payload 32 at
offset 40 = m_size - m_block_alignment; releasing the out-of-range pointer
at offset 48 (= base + size) resolves to this header. -/
def tailBlockState : allocator :=
  { mem := fun o =>
      if o = 40 then { size_flags := 0x80000020, prev := 0 } else zeroBlock,
    m_size := 48, m_align_bytes := 8, m_block_alignment := 8, m_occupied := 48 }

end allocator

end cc0

namespace cc0.allocator

theorem is_free_eq_not_is_occupied (b : cc0.Block) :
    is_free b = !is_occupied b := by
  cases h : b.size_flags &&& 0x80000000 == 0 <;>
    simp [is_free, is_occupied, bne, h]

theorem scan_none (s : allocator) (num f : Nat) :
    scan s num f none = none := by
  cases f <;> rfl

theorem blockList_none (s : allocator) (f : Nat) :
    blockList s f none = [] := by
  cases f <;> rfl

/-- The scanning loop of alloc is first-fit over the code's own traversal:
it returns the first visited block that is free and large enough. -/
theorem scan_eq_find (s : allocator) (num : Nat) :
    ∀ (f : Nat) (op : Option Nat),
      scan s num f op =
        (blockList s f op).find?
          (fun o => is_free (s.mem o) && decide (num ≤ get_size (s.mem o))) := by
  intro f
  induction f with
  | zero => intro op; cases op <;> rfl
  | succ f ih =>
    intro op
    cases op with
    | none => rfl
    | some o =>
      rw [show blockList s (f + 1) (some o) = o :: blockList s f (get_next s o) from rfl]
      rw [show scan s num (f + 1) (some o) =
            (if is_occupied (s.mem o) || decide (get_size (s.mem o) < num)
             then scan s num f (get_next s o) else some o) from rfl]
      by_cases hp : (is_free (s.mem o) && decide (num ≤ get_size (s.mem o))) = true
      · rw [List.find?_cons_of_pos
            (p := fun x => is_free (s.mem x) && decide (num ≤ get_size (s.mem x))) _ hp]
        have h12 := hp
        rw [Bool.and_eq_true] at h12
        have h1 : is_free (s.mem o) = true := h12.1
        have h2 : num ≤ get_size (s.mem o) := of_decide_eq_true h12.2
        have ho : is_occupied (s.mem o) = false := by
          have hf := is_free_eq_not_is_occupied (s.mem o)
          rw [h1] at hf
          cases hoc : is_occupied (s.mem o)
          · rfl
          · rw [hoc] at hf; exact absurd hf (by decide)
        have hd : decide (get_size (s.mem o) < num) = false :=
          decide_eq_false (Nat.not_lt.mpr h2)
        rw [ho, hd]
        rfl
      · rw [List.find?_cons_of_neg
            (p := fun x => is_free (s.mem x) && decide (num ≤ get_size (s.mem x))) _ hp, ← ih]
        have hc : (is_occupied (s.mem o) || decide (get_size (s.mem o) < num)) = true := by
          cases hf : is_free (s.mem o) with
          | false =>
            have ho : is_occupied (s.mem o) = true := by
              have h := is_free_eq_not_is_occupied (s.mem o)
              rw [hf] at h
              cases hoc : is_occupied (s.mem o)
              · rw [hoc] at h; exact absurd h (by decide)
              · rfl
            rw [ho]
            rfl
          | true =>
            have hfalse : (is_free (s.mem o) && decide (num ≤ get_size (s.mem o))) = false :=
              Bool.eq_false_iff.mpr hp
            rw [hf] at hfalse
            have hs2 : decide (num ≤ get_size (s.mem o)) = false := by
              simpa using hfalse
            have hlt : get_size (s.mem o) < num :=
              Nat.not_le.mp (of_decide_eq_false hs2)
            rw [decide_eq_true hlt]
            simp
        rw [hc]
        rfl

/-- Claim C1 (code bug): on a fresh 48-byte buffer with alignment 8 the
first block starts at offset 0 with payload size 40 and the header
footprint is 8, so the next-block lookup described by the claim computes
0 + 8 + 40 = 48, at the buffer end, and must report no neighbor; the code
computes only 0 + 40 and returns a neighbor at offset 40. -/
theorem c1_get_next_misses_footprint :
    get_next (init 48 8) 0 = some 40 ∧
    (init 48 8).m_block_alignment = 8 ∧
    get_size ((init 48 8).mem 0) = 40 ∧
    (init 48 8).m_size = 48 := by
  decide

/-- Claim C2 (code bug): after one allocation of 16 bytes from a fresh
48-byte buffer with alignment 8, the code's own block traversal visits
offsets 0, 16 and 32 and the sum of header footprints plus payload sizes
over those blocks is 56, not the total buffer size 48: the blocks no
longer tile the buffer (the block at 16 starts 16 bytes after the block at
0, inside that block's header-plus-payload extent of 24 bytes). -/
theorem c2_tiling_broken :
    blocks afterAlloc16 = [0, 16, 32] ∧
    tileSum afterAlloc16 = 56 ∧
    total_bytes afterAlloc16 = 48 := by
  decide

/-- Claim C3 (code bug): releasing the occupied middle block (payload 16)
of threeBlockState merges both free neighbors (the surviving block's
payload becomes 48), but the occupied counter drops from 40 only by
16 + 8 = 24 to 16 — one header footprint for the two merges — where the
claim requires a drop of 16 + 8 + 8 = 32, to 8. -/
theorem c3_double_merge_single_footprint :
    threeBlockState.m_occupied = 40 ∧
    get_size ((free threeBlockState 24).mem 0) = 48 ∧
    (free threeBlockState 24).m_occupied = 16 := by
  decide

/-- Claim C4 (code bug): allocating 16 bytes from a fresh 48-byte buffer
with alignment 8 and releasing the pointer makes the released block
(payload 16) absorb its free next block (payload 16); the surviving
payload is 16 + 16 = 32, not 16 + (8 + 16) = 40 as the claim's
header-plus-payload merge requires. -/
theorem c4_merge_drops_header_extent :
    get_size (afterAlloc16.mem 0) = 16 ∧
    get_size (afterAlloc16.mem 16) = 16 ∧
    get_size (afterAllocFree.mem 0) = 32 := by
  decide

/-- Claim C5 (code bug): immediately after the release in afterAllocFree
the resulting block at offset 0 is free and the code's own next-block
lookup yields the block at offset 32, which is also free: two adjacent
free blocks coexist right after a release. -/
theorem c5_adjacent_free_after_release :
    is_free (afterAllocFree.mem 0) = true ∧
    get_next afterAllocFree 0 = some 32 ∧
    is_free (afterAllocFree.mem 32) = true := by
  decide

/-- Claim C6 (code bug): the 16-byte request on a fresh 48-byte buffer with
alignment 8 splits the initial block (payload 40): the block is shrunk to
16 and the new free header (payload 16, prev 16) is written at offset 16,
i.e. payload-size bytes after the block start, while the claim places it
immediately after the shrunk block, at offset 8 + 16 = 24 — which still
holds the zeroed bytes. -/
theorem c6_split_header_misplaced :
    get_size (afterAlloc16.mem 0) = 16 ∧
    afterAlloc16.mem 16 = { size_flags := 16, prev := 16 } ∧
    afterAlloc16.mem 24 = zeroBlock := by
  decide

/-- Claim C7 (counterexample): the pointer at offset 48 = base + size lies
outside the buffer range of tailBlockState, yet releasing it is not a
no-op: the bounds check is applied to 48 - 8 = 40, which is in range, so
the header at offset 40 is marked free and the occupied counter drops from
48 to 16. -/
theorem c7_out_of_range_release_mutates :
    tailBlockState.m_occupied = 48 ∧
    (free tailBlockState 48).m_occupied = 16 ∧
    (free tailBlockState 48).mem 40 ≠ tailBlockState.mem 40 := by
  decide

/-- Claim C7 (amended): release is a silent no-op exactly on the guard the
code checks: whenever the computed header address p - header_footprint
falls outside [base, base + size), the state is returned unchanged. -/
theorem c7_release_noop_on_out_of_range_header (s : allocator) (p : Int)
    (h : (s.m_size : Int) ≤ p - (s.m_block_alignment : Int) ∨
         p - (s.m_block_alignment : Int) < 0) :
    free s p = s := by
  unfold free
  rw [if_pos h]

/-- Witness for the amended C7 theorem at a concrete input: releasing the
pointer at offset 100 from a fresh 48-byte buffer (header address 92, far
past the end) changes nothing. -/
theorem c7_release_noop_witness :
    (((init 48 8).m_size : Int) ≤ 100 - ((init 48 8).m_block_alignment : Int) ∨
      (100 : Int) - ((init 48 8).m_block_alignment : Int) < 0) ∧
    free (init 48 8) 100 = init 48 8 :=
  ⟨Or.inl (by decide), c7_release_noop_on_out_of_range_header (init 48 8) 100 (Or.inl (by decide))⟩

/-- Claim C8 (code bug): a fresh 48-byte buffer with alignment 8 has
occupied counter 8; allocating 40 bytes succeeds and an immediate release
leaves the counter at 0, not 8 — the release absorbed the spurious
zero-size tail block and subtracted a header footprint that allocation
never added. -/
theorem c8_round_trip_not_restored :
    (init 48 8).m_occupied = 8 ∧ roundTripOcc = 0 := by
  decide

/-- Claim C9 (counterexample): on a fresh 16-byte buffer with alignment 8
the single block has payload 8. A request of 4294967295 bytes rounds up,
per the claim, to 4294967296, which no block can satisfy, so the call must
return no allocation; the code's uint32 rounding wraps to 0 and the call
returns the pointer at offset 8. -/
theorem c9_rounding_wraps_cex :
    align_num_bytes 8 4294967295 = 0 ∧
    get_size ((init 16 8).mem 0) = 8 ∧
    allocPtr (init 16 8) 4294967295 = some (some 8) := by
  decide

/-- Claim C10: a block whose payload size is 0 terminates traversal: the
next-block lookup returns no neighbor even when the computed address (the
block's own offset) lies strictly inside the buffer, and the allocation
scan stops at such a block, selecting it if it qualifies and otherwise
failing. -/
theorem c10_zero_size_block_terminates (s : allocator) (o : Nat)
    (h0 : get_size (s.mem o) = 0) (_h1 : o < s.m_size) :
    get_next s o = none ∧
    ∀ num f, scan s num (f + 1) (some o) =
      (if is_occupied (s.mem o) || decide (get_size (s.mem o) < num)
       then none else some o) := by
  have hn : get_next s o = none := by
    unfold get_next
    rw [h0]
    by_cases hc : s.m_size ≤ o + 0
    · rw [if_pos hc]
    · rw [if_neg hc, if_neg (by decide : ¬ (0 : Nat) < 0)]
  refine ⟨hn, ?_⟩
  intro num f
  rw [show scan s num (f + 1) (some o) =
        (if is_occupied (s.mem o) || decide (get_size (s.mem o) < num)
         then scan s num f (get_next s o) else some o) from rfl]
  rw [hn, scan_none]

/-- Witness for C10: in a fresh 48-byte buffer with alignment 8 the zeroed
bytes at offset 40 read back as a block of size 0 strictly inside the
buffer, and its next lookup is none. -/
theorem c10_zero_size_witness :
    get_size ((init 48 8).mem 40) = 0 ∧ 40 < (init 48 8).m_size ∧
    get_next (init 48 8) 40 = none :=
  ⟨by decide, by decide,
   (c10_zero_size_block_terminates (init 48 8) 40 (by decide) (by decide)).1⟩

/-- The uint32 rounding of align_num_bytes is exact whenever the rounded
value is representable: for positive alignment a and n + a ≤ 2^32 the
result is at least n, a multiple of a, and less than n + a (hence the
least such multiple). -/
theorem align_num_bytes_exact (a n : Nat) (ha : 0 < a) (hw : n + a ≤ U32) :
    n ≤ align_num_bytes a n ∧ align_num_bytes a n % a = 0 ∧
    align_num_bytes a n < n + a := by
  have hdm : a * (n / a) + n % a = n := Nat.div_add_mod n a
  have hcm : a * (n / a) = n / a * a := Nat.mul_comm a (n / a)
  have hml : n % a < a := Nat.mod_lt n ha
  by_cases hm : 0 < n % a
  · have hv : align_num_bytes a n = n / a * a + a := by
      unfold align_num_bytes
      rw [if_pos hm, mul_one, Nat.mod_eq_of_lt (by omega)]
    have hmod : (n / a * a + a) % a = 0 := by
      have hstep : n / a * a + a = (n / a + 1) * a := by ring
      rw [hstep, Nat.mul_mod_left]
    refine ⟨by omega, by rw [hv]; exact hmod, by omega⟩
  · have hm0 : n % a = 0 := Nat.eq_zero_of_not_pos hm
    have hv : align_num_bytes a n = n := by
      unfold align_num_bytes
      rw [if_neg hm, mul_zero, add_zero, Nat.mod_eq_of_lt (by omega)]
      omega
    exact ⟨by omega, by rw [hv]; exact hm0, by omega⟩

/-- Claim C9 (amended): for a positive request n whose alignment round-up
is representable in 32 bits, whenever alloc runs without the split path's
null dereference it rounds n up to the least multiple of the alignment
granularity (for larger n the uint32 rounding wraps modulo 2^32), and the
value it returns is exactly the first block of the code's traversal that
is free with payload at least the rounded request, shifted by the header
footprint — or no allocation when no block qualifies. -/
theorem c9_alloc_rounds_and_first_fits (s : allocator) (n : Nat)
    (s2 : allocator) (r : Option Nat)
    (h0 : 0 < n) (ha : 0 < s.m_align_bytes) (hw : n + s.m_align_bytes ≤ U32)
    (hc : alloc s n = some (s2, r)) :
    (n ≤ align_num_bytes s.m_align_bytes n ∧
     align_num_bytes s.m_align_bytes n % s.m_align_bytes = 0 ∧
     align_num_bytes s.m_align_bytes n < n + s.m_align_bytes) ∧
    r = Option.map (fun o => o + s.m_block_alignment)
          (firstFit s (align_num_bytes s.m_align_bytes n)) := by
  constructor
  · exact align_num_bytes_exact s.m_align_bytes n ha hw
  · rw [firstFit, blocks, ← scan_eq_find]
    have hne : ¬ n = 0 := Nat.pos_iff_ne_zero.mp h0
    simp only [alloc, if_neg hne] at hc
    cases hs : scan s (align_num_bytes s.m_align_bytes n) (s.m_size + 1) (some 0) with
    | none =>
      simp only [hs, Option.some.injEq, Prod.mk.injEq] at hc
      simp only [Option.map_none']
      exact hc.2.symm
    | some o =>
      simp only [hs] at hc
      simp only [Option.map_some']
      split at hc
      · split at hc
        · exact absurd hc (by simp)
        · simp only [Option.some.injEq, Prod.mk.injEq] at hc
          exact hc.2.symm
      · simp only [Option.some.injEq, Prod.mk.injEq] at hc
        exact hc.2.symm

/-- Witness for the amended C9 theorem: allocating 16 bytes from a fresh
48-byte buffer with alignment 8 returns the pointer at offset 8 = 0 + 8,
the first (and only) free block of the traversal shifted by the footprint,
and 16 rounds to itself. -/
theorem c9_first_fit_witness :
    (16 ≤ align_num_bytes (init 48 8).m_align_bytes 16 ∧
     align_num_bytes (init 48 8).m_align_bytes 16 % (init 48 8).m_align_bytes = 0 ∧
     align_num_bytes (init 48 8).m_align_bytes 16 < 16 + (init 48 8).m_align_bytes) ∧
    (some 8 : Option Nat) = Option.map (fun o => o + (init 48 8).m_block_alignment)
      (firstFit (init 48 8) (align_num_bytes (init 48 8).m_align_bytes 16)) :=
  c9_alloc_rounds_and_first_fits (init 48 8) 16 afterAlloc16 (some 8)
    (by decide) (by decide) (by decide) rfl

end cc0.allocator
